import Mathlib

/-!
Verification of `src/python/pybind11_utils.cc` (vineyard):
a bidirectional value bridge between nlohmann JSON values and Python
objects (`detail::from_json`, `detail::to_json`) and a write-once
docstring patcher (`vineyard_add_doc`).

The embedding is shallow: the `json` type (`common/util/json.h`, an alias
of `nlohmann::json`, outside `src/`) is modelled as the spec's structured
value variant `Null | Bool | Int64 | UInt64 | Float64 | String | Array |
Object` with insertion-ordered objects; its member functions used by the
source are modelled from nlohmann::json's documented semantics. Python
objects are modelled as a closed variant over the kinds the source
dispatches on, with the Python-level facts the source relies on
(`bool` is a subclass of `int`, `str` objects may fail UTF-8 encoding)
made explicit.
-/

namespace VineyardSpec

/-- Modelled from the spec: the structured value (`json`, i.e.
`nlohmann::json` via `common/util/json.h`, which is outside `src/`):
a closed variant `Null | Bool | Int64 | UInt64 | Float64 | String |
Array (ordered) | Object (mapping from String, insertion order
preserved)`.  `int64` carries `json::number_integer_t` (a signed 64-bit
integer, well-formedness bounds stated separately in `Json.wf`),
`uint64` carries `json::number_unsigned_t` (unsigned 64-bit).  The
`double` payload of `float64` is opaque to the bridge (it is only passed
through, never inspected), so it is carried as its bit pattern. -/
inductive Json where
  | null : Json
  | bool (b : Bool) : Json
  | int64 (i : Int) : Json
  | uint64 (u : Nat) : Json
  | float64 (bits : Nat) : Json
  | str (s : String) : Json
  | arr (xs : List Json) : Json
  | obj (kvs : List (String × Json)) : Json
deriving Repr

/-- `j.is_null()`. -/
def Json.is_null : Json → Bool
  | .null => true
  | _ => false

/-- `j.is_boolean()`. -/
def Json.is_boolean : Json → Bool
  | .bool _ => true
  | _ => false

/-- `j.is_number_integer()`.  Per nlohmann::json's documented semantics
this is true for BOTH signed (`number_integer`) and unsigned
(`number_unsigned`) stored values. -/
def Json.is_number_integer : Json → Bool
  | .int64 _ => true
  | .uint64 _ => true
  | _ => false

/-- `j.is_number_unsigned()`: true only for `number_unsigned` values. -/
def Json.is_number_unsigned : Json → Bool
  | .uint64 _ => true
  | _ => false

/-- `j.is_number_float()`. -/
def Json.is_number_float : Json → Bool
  | .float64 _ => true
  | _ => false

/-- `j.is_string()`. -/
def Json.is_string : Json → Bool
  | .str _ => true
  | _ => false

/-- `j.is_array()`. -/
def Json.is_array : Json → Bool
  | .arr _ => true
  | _ => false

/-- Two's-complement reinterpretation of an unsigned 64-bit value as a
signed 64-bit value: `static_cast to int64_t` modulo `2 ^ 64`. -/
def toSigned64 (u : Nat) : Int :=
  if u % 2 ^ 64 < 2 ^ 63 then ((u % 2 ^ 64 : Nat) : Int)
  else ((u % 2 ^ 64 : Nat) : Int) - 2 ^ 64

/-- `j.get<json::number_integer_t>()` on a value for which
`is_number_integer` holds: on a signed value, the stored integer; on an
unsigned stored value, nlohmann performs an arithmetic conversion
(`static_cast` to the signed 64-bit type), i.e. two's-complement
reinterpretation.  (The fallback 0 is never reached by the bridge.) -/
def Json.getInt64 : Json → Int
  | .int64 i => i
  | .uint64 u => toSigned64 u
  | _ => 0

/-- Well-formedness invariants of `nlohmann::json` storage: a signed
number is held in a 64-bit `number_integer_t`, an unsigned number in a
64-bit `number_unsigned_t`, and an object's keys are unique. -/
def Json.wf : Json → Prop
  | .null => True
  | .bool _ => True
  | .int64 i => -(2 ^ 63) ≤ i ∧ i < 2 ^ 63
  | .uint64 u => u < 2 ^ 64
  | .float64 _ => True
  | .str _ => True
  | .arr xs => wfList xs
  | .obj kvs => (kvs.map Prod.fst).Nodup ∧ wfObj kvs
where
  wfList : List Json → Prop
    | [] => True
    | x :: xs => Json.wf x ∧ wfList xs
  wfObj : List (String × Json) → Prop
    | [] => True
    | kv :: kvs => Json.wf kv.2 ∧ wfObj kvs

/-- `v` avoids the `UInt64` constructor everywhere (the round-trip claim
excludes the unsigned-overflow branch). -/
def Json.noUInt64 : Json → Prop
  | .null => True
  | .bool _ => True
  | .int64 _ => True
  | .uint64 _ => False
  | .float64 _ => True
  | .str _ => True
  | .arr xs => noUList xs
  | .obj kvs => noUObj kvs
where
  noUList : List Json → Prop
    | [] => True
    | x :: xs => Json.noUInt64 x ∧ noUList xs
  noUObj : List (String × Json) → Prop
    | [] => True
    | kv :: kvs => Json.noUInt64 kv.2 ∧ noUObj kvs

/-- The Python runtime value, modelled as a closed variant over the kinds
`to_json` / `from_json` / `vineyard_add_doc` dispatch on.
`float` carries the opaque bit pattern of the `double` payload.
`bytes` carries the raw bytes.  `strNonUTF8` models a `str` object
containing lone surrogates, for which CPython's
`PyUnicode_AsUTF8AndSize` (and pybind11's `cast to std::string`) fails;
`str` models a `str` whose UTF-8 encoding succeeds.  `other` models any
object of an unsupported kind, carrying the text of `py::repr`. -/
inductive PyObj where
  | none : PyObj
  | bool (b : Bool) : PyObj
  | int (i : Int) : PyObj
  | float (bits : Nat) : PyObj
  | bytes (bs : List Nat) : PyObj
  | str (s : String) : PyObj
  | strNonUTF8 : PyObj
  | tuple (xs : List PyObj) : PyObj
  | list (xs : List PyObj) : PyObj
  | dict (kvs : List (PyObj × PyObj)) : PyObj
  | other (reprText : String) : PyObj
deriving Repr

/-- `obj.is_none()`. -/
def PyObj.is_none : PyObj → Bool
  | .none => true
  | _ => false

/-- `py::isinstance of py::bool_` (`PyBool_Check`). -/
def isinstance_bool : PyObj → Bool
  | .bool _ => true
  | _ => false

/-- `py::isinstance of py::int_` (`PyLong_Check`).  In Python `bool` is a
subclass of `int`, so boolean objects also pass the integer check: a
boolean satisfies both capability checks simultaneously. -/
def isinstance_int : PyObj → Bool
  | .int _ => true
  | .bool _ => true
  | _ => false

/-- `from_json` (`pybind11_utils.cc` lines 142-169): cast a structured
value to a Python object.  Each arm is the branch of the source's
if-chain that fires for that constructor, following the chain order
`is_null, is_boolean, is_number_integer, is_number_unsigned,
is_number_float, is_string, is_array, (object)`.  Note the `uint64` arm:
since `is_number_integer` is also true for unsigned stored values, the
`is_number_integer` branch fires first and reads the value through
`get<json::number_integer_t>()`, i.e. `toSigned64`; the dedicated
`is_number_unsigned` branch is unreachable. -/
def from_json : Json → PyObj
  | .null => .none
  | .bool b => .bool b
  | .int64 i => .int i
  | .uint64 u => .int (toSigned64 u)
  | .float64 bits => .float bits
  | .str s => .str s
  | .arr xs => .list (fromJsonList xs)
  | .obj kvs => .dict (fromJsonObj kvs)
where
  /-- the `py::list obj; for el in j: obj.append(from_json(el))` loop. -/
  fromJsonList : List Json → List PyObj
    | [] => []
    | x :: xs => from_json x :: fromJsonList xs
  /-- the `py::dict obj; for it in j: obj[py::str(it.key())] =
  from_json(it.value())` loop (keys of a `json` object are unique, so
  each assignment appends a fresh entry in iteration order). -/
  fromJsonObj : List (String × Json) → List (PyObj × PyObj)
    | [] => []
    | kv :: kvs => (.str kv.1, from_json kv.2) :: fromJsonObj kvs

/-- `py::str(key)` as used on mapping keys by `to_json`: the text
representation produced by Python's built-in `str`.  Text keys pass
through verbatim; integers render in decimal; booleans and `None` use
their Python spellings.  For the remaining kinds the exact rendering is
not exercised by the source's callers verified here and is modelled as
an explicit placeholder carrying the kind. -/
def pyStr : PyObj → String
  | .none => "None"
  | .bool b => if b then "True" else "False"
  | .int i => toString i
  | .float bits => "float:" ++ toString bits
  | .bytes bs => "bytes:" ++ toString bs
  | .str s => s
  | .strNonUTF8 => "str:nonUTF8"
  | .tuple _ => "tuple:opaque"
  | .list _ => "list:opaque"
  | .dict _ => "dict:opaque"
  | .other r => r

/-- `py::repr(obj)` as used in `to_json`'s error messages.  Integers
render in decimal; unsupported objects carry their repr text
directly; the rest are placeholders (never reached by those messages). -/
def pyRepr : PyObj → String
  | .int i => toString i
  | .other r => r
  | v => "repr:" ++ pyStr v

/-- Modelled from the spec: `base64-encode the raw bytes` — the source
delegates to Python's `base64.b64encode` (standard RFC 4648 base64 with
padding), whose alphabet this is. -/
def base64Alphabet : List Char :=
  "ABCDEFGHIJKLMNOPQRSTUVWXYZabcdefghijklmnopqrstuvwxyz0123456789+/".toList

/-- The base64 digit for a 6-bit group. -/
def base64Digit (n : Nat) : Char := base64Alphabet.getD n 'A'

/-- RFC 4648 base64 of a byte sequence (Python `base64.b64encode`
followed by decoding the ASCII result to text). -/
def base64Encode : List Nat → String
  | [] => ""
  | [a] =>
    String.mk [base64Digit (a / 4), base64Digit (a % 4 * 16), '=', '=']
  | [a, b] =>
    String.mk [base64Digit (a / 4), base64Digit (a % 4 * 16 + b / 16),
               base64Digit (b % 16 * 4), '=']
  | a :: b :: c :: rest =>
    String.mk [base64Digit (a / 4), base64Digit (a % 4 * 16 + b / 16),
               base64Digit (b % 16 * 4 + c / 64), base64Digit (c % 64)]
      ++ base64Encode rest

/-- The two exceptions `to_json` throws (both `std::runtime_error` in the
source, distinguished by their message; the message's variable part is
`py::repr(obj)`).  `castError` models the `cast to std::string` failure
on a non-UTF-8-encodable `str` (a pybind11 `cast_error`, thrown outside
`to_json`'s own error handling). -/
inductive ToJsonError where
  | integerOutOfRange (reprText : String) : ToJsonError
  | unsupportedType (reprText : String) : ToJsonError
  | castError : ToJsonError
deriving Repr

/-- `obj.cast<json::number_integer_t>()` on a Python `int`: pybind11 uses
`PyLong_AsLongLong`, which yields the exact value when it fits in signed
64 bits and raises (so the cast throws, caught by the source's
`catch (...)`) otherwise. -/
def castInt64 (i : Int) : Option Int :=
  if -(2 ^ 63) ≤ i ∧ i < 2 ^ 63 then some i else none

/-- `obj.cast<json::number_unsigned_t>()` on a Python `int`: pybind11
uses `PyLong_AsUnsignedLongLong`, exact when the value fits in unsigned
64 bits, raising otherwise. -/
def castUInt64 (i : Int) : Option Nat :=
  if 0 ≤ i ∧ i < 2 ^ 64 then some i.toNat else none

/-- The integer branch of `to_json` (lines 183-200): try the signed
64-bit cast and verify it by converting back (`py::int_(s).equal(obj)`);
then the unsigned cast, likewise verified; otherwise throw the
out-of-range `std::runtime_error` carrying `py::repr(obj)`. -/
def toJsonInt (i : Int) : Except ToJsonError Json :=
  let unsignedOrFail : Except ToJsonError Json :=
    match castUInt64 i with
    | some u =>
      if (u : Int) = i then .ok (.uint64 u)
      else .error (.integerOutOfRange (pyRepr (.int i)))
    | Option.none => .error (.integerOutOfRange (pyRepr (.int i)))
  match castInt64 i with
  | some s =>
    if s = i then .ok (.int64 s) else unsignedOrFail
  | Option.none => unsignedOrFail

/-- `out[key] = value` on a `json` object.  Modelled from the spec:
the structured Object is a mapping with insertion order preserved
(§3), so assignment replaces in place when the key is present and
appends otherwise. -/
def objInsert : List (String × Json) → String → Json → List (String × Json)
  | [], k, v => [(k, v)]
  | kv :: rest, k, v =>
    if kv.1 = k then (kv.1, v) :: rest else kv :: objInsert rest k v

/-- `to_json` (`pybind11_utils.cc` lines 176-229): cast a Python object
to a structured value.  Each arm is the branch of the source's check
chain (`is_none`, `bool_`, `int_`, `float_`, `bytes`, `str`, `tuple` or
`list`, `dict`, otherwise throw) that fires for that constructor.  The
only overlap among the source's checks is that booleans also pass the
integer check (`isinstance_int`); the source tests `bool_` first, so
boolean objects take the boolean arm here and never reach `toJsonInt`.
A `str` that fails UTF-8 encoding makes `cast to std::string` throw,
modelled by `castError`. -/
def to_json : PyObj → Except ToJsonError Json
  | .none => .ok .null
  | .bool b => .ok (.bool b)
  | .int i => toJsonInt i
  | .float bits => .ok (.float64 bits)
  | .bytes bs => .ok (.str (base64Encode bs))
  | .str s => .ok (.str s)
  | .strNonUTF8 => .error .castError
  | .tuple xs =>
    match toJsonList xs with
    | .ok js => .ok (.arr js)
    | .error e => .error e
  | .list xs =>
    match toJsonList xs with
    | .ok js => .ok (.arr js)
    | .error e => .error e
  | .dict kvs =>
    match toJsonDict kvs [] with
    | .ok out => .ok (.obj out)
    | .error e => .error e
  | .other r => .error (.unsupportedType (pyRepr (.other r)))
where
  /-- the `auto out = json::array(); for value in obj:
  out.push_back(to_json(value))` loop; the first exception aborts the
  whole conversion. -/
  toJsonList : List PyObj → Except ToJsonError (List Json)
    | [] => .ok []
    | x :: xs =>
      match to_json x with
      | .ok j =>
        match toJsonList xs with
        | .ok js => .ok (j :: js)
        | .error e => .error e
      | .error e => .error e
  /-- the `auto out = json::object(); for key in obj:
  out[py::str(key).cast<std::string>()] = to_json(obj[key])` loop,
  accumulating into the object built so far. -/
  toJsonDict : List (PyObj × PyObj) → List (String × Json) →
      Except ToJsonError (List (String × Json))
    | [], acc => .ok acc
    | kv :: kvs, acc =>
      match to_json kv.2 with
      | .ok j => toJsonDict kvs (objInsert acc (pyStr kv.1) j)
      | .error e => .error e

/-! ## The docstring patcher `vineyard_add_doc` (lines 33-123) -/

/-- `PyBytes_Check(doc_obj)`. -/
def isBytesCheck : PyObj → Bool
  | .bytes _ => true
  | _ => false

/-- `PyUnicode_Check(doc_obj)` — true for every `str` object, including
one whose UTF-8 encoding later fails. -/
def isUnicodeCheck : PyObj → Bool
  | .str _ => true
  | .strNonUTF8 => true
  | _ => false

/-- The UTF-8 encoding of one character (RFC 3629). -/
def utf8EncodeCharNat (c : Char) : List Nat :=
  let n := c.toNat
  if n < 128 then [n]
  else if n < 2048 then [192 + n / 64, 128 + n % 64]
  else if n < 65536 then [224 + n / 4096, 128 + n / 64 % 64, 128 + n % 64]
  else [240 + n / 262144, 128 + n / 4096 % 64, 128 + n / 64 % 64,
        128 + n % 64]

/-- The UTF-8 bytes of a text value (what `PyUnicode_AsUTF8AndSize`
yields on success). -/
def utf8Bytes (s : String) : List Nat :=
  s.data.foldr (fun c acc => utf8EncodeCharNat c ++ acc) []

/-- The five documentable target kinds the source dispatches on by
dynamic type, in chain order: `PyCFunction_Type`, `PyInstanceMethod_Type`
(whose wrapped function is read through
`PyInstanceMethod_GET_FUNCTION`), type name `method_descriptor`, type
name `getset_descriptor`, and `PyType_Type`.  Each owns one mutable
documentation slot (`ml_doc` / `ml_doc` / `ml_doc` / `doc` / `tp_doc`)
guarded and written by identical logic; only the noun and the name field
of the error message differ. -/
inductive SlotKind where
  | cfunction : SlotKind
  | instanceMethod : SlotKind
  | methodDescr : SlotKind
  | getsetDescr : SlotKind
  | typeObject : SlotKind
deriving Repr, DecidableEq

/-- The noun used in the `already has a docstring` message for each
slot kind (`function` / `function` / `method` / `attribute` / `Type`). -/
def SlotKind.noun : SlotKind → String
  | .cfunction => "function"
  | .instanceMethod => "function"
  | .methodDescr => "method"
  | .getsetDescr => "attribute"
  | .typeObject => "Type"

/-- A documentable target.  A `slot` target is one of the five known
kinds with its identifying name and its documentation slot — a C string
pointer that is either null (`Option.none`) or a byte string.  A
`generic` target is any other object, carrying its current `__doc__`
attribute (absent = `Option.none`) and whether `__doc__` is assignable
on it (`PyObject_SetAttrString` succeeding). -/
inductive DocTarget where
  | slot (k : SlotKind) (name : String) (doc : Option (List Nat)) : DocTarget
  | generic (doc : Option PyObj) (settable : Bool) : DocTarget
deriving Repr

/-- The errors `vineyard_add_doc` raises (each a `PyErr_Format` call in
the source): the tuple-parse failure, the UTF-8 unpacking failure
(`error unpacking string as utf-8`, the source's only invalid-text
error), `... already has a docstring` (carrying the formatted message),
and `Cannot set a docstring for that object`. -/
inductive AddDocError where
  | parseFailure : AddDocError
  | invalidUTF8 : AddDocError
  | alreadyDocumented (message : String) : AddDocError
  | cannotSetDoc : AddDocError
deriving Repr

/-- `strndup(doc_str, doc_len)` where `doc_len` is the full length of the
byte buffer: copies `min(doc_len, strlen(doc_str))` bytes, i.e. the
buffer up to (not including) its first NUL byte. -/
def strndupBytes (bs : List Nat) : List Nat :=
  bs.takeWhile (fun b => b ≠ 0)

/-- The doc-payload normalization at lines 42-54: `doc_str` starts as the
placeholder `"<invalid string>"`; a bytes payload replaces it with the
raw bytes; a text payload replaces it with its UTF-8 encoding, failing
(`Option.none` here, the source's `error unpacking string as utf-8`)
when `PyUnicode_AsUTF8AndSize` returns null. -/
def docPayload (doc_obj : PyObj) : Option (List Nat) :=
  let afterBytes : List Nat :=
    match doc_obj with
    | .bytes bs => bs
    | _ => utf8Bytes "<invalid string>"
  match doc_obj with
  | .str s => some (utf8Bytes s)
  | .strNonUTF8 => Option.none
  | _ => some afterBytes

/-- The emptiness test applied to every slot: `ptr && ptr[0]` — the slot
counts as documented only when the pointer is non-null and the first
byte is not NUL. -/
def slotDocumented : Option (List Nat) → Bool
  | Option.none => false
  | some [] => false
  | some (b :: _) => b ≠ 0

/-- The generic-object fallback's check on the current `__doc__`
attribute (lines 110-112): documented iff the attribute is present, not
`None`, and is a nonempty bytes or a nonempty text object. -/
def genericDocumented : Option PyObj → Bool
  | some (.bytes bs) => ¬ bs.isEmpty
  | some (.str s) => ¬ s.isEmpty
  | some .strNonUTF8 => true
  | _ => false

/-- `vineyard_add_doc` (lines 33-123), with the argument tuple already
split into the target and the doc payload (`PyArg_ParseTuple`).  For a
slot-kind target: if the slot is documented, fail with the kind's
`already has a docstring` message; otherwise store `strndup(doc_str,
doc_len)` in the slot.  For any other target: fail if its `__doc__`
is present and nonempty, otherwise assign the original `doc_obj` (not
the normalized bytes) to `__doc__`, failing when the attribute is not
assignable.  An error leaves the target unchanged (the source returns
from `PyErr_Format` before any write). -/
def vineyard_add_doc (obj : DocTarget) (doc_obj : PyObj) :
    Except AddDocError DocTarget :=
  match docPayload doc_obj with
  | Option.none => .error .invalidUTF8
  | some docBytes =>
    match obj with
    | .slot k name doc =>
      if slotDocumented doc then
        .error (.alreadyDocumented
          (k.noun ++ " '" ++ name ++ "' already has a docstring"))
      else
        .ok (.slot k name (some (strndupBytes docBytes)))
    | .generic doc settable =>
      if genericDocumented doc then
        .error (.alreadyDocumented "Object already has a docstring")
      else if settable then
        .ok (.generic (some doc_obj) settable)
      else
        .error .cannotSetDoc

/-- `py::isinstance of py::float_` (`PyFloat_Check`). -/
def isinstance_float : PyObj → Bool
  | .float _ => true
  | _ => false

/-- `py::isinstance of py::tuple`. -/
def isinstance_tuple : PyObj → Bool
  | .tuple _ => true
  | _ => false

/-- `py::isinstance of py::list`. -/
def isinstance_list : PyObj → Bool
  | .list _ => true
  | _ => false

/-- `py::isinstance of py::dict`. -/
def isinstance_dict : PyObj → Bool
  | .dict _ => true
  | _ => false

/-- The disjunction of every capability check in `to_json`'s chain: a
runtime value failing all of them reaches the final `throw`. -/
def toJsonSupported (v : PyObj) : Bool :=
  v.is_none || isinstance_bool v || isinstance_int v || isinstance_float v ||
  isBytesCheck v || isUnicodeCheck v || isinstance_tuple v ||
  isinstance_list v || isinstance_dict v

/-! ## Helper lemmas for the round-trip and key-coercion claims -/

theorem wfList_forall {xs : List Json} (h : Json.wf.wfList xs) :
    ∀ x ∈ xs, Json.wf x := by
  induction xs with
  | nil => intro x hx; cases hx
  | cons y ys ih =>
    intro x hx
    rcases List.mem_cons.mp hx with h1 | h2
    · exact h1 ▸ h.1
    · exact ih h.2 x h2

theorem wfObj_forall {kvs : List (String × Json)} (h : Json.wf.wfObj kvs) :
    ∀ kv ∈ kvs, Json.wf kv.2 := by
  induction kvs with
  | nil => intro kv hkv; cases hkv
  | cons y ys ih =>
    intro kv hkv
    rcases List.mem_cons.mp hkv with h1 | h2
    · exact h1 ▸ h.1
    · exact ih h.2 kv h2

theorem noUList_forall {xs : List Json} (h : Json.noUInt64.noUList xs) :
    ∀ x ∈ xs, Json.noUInt64 x := by
  induction xs with
  | nil => intro x hx; cases hx
  | cons y ys ih =>
    intro x hx
    rcases List.mem_cons.mp hx with h1 | h2
    · exact h1 ▸ h.1
    · exact ih h.2 x h2

theorem noUObj_forall {kvs : List (String × Json)} (h : Json.noUInt64.noUObj kvs) :
    ∀ kv ∈ kvs, Json.noUInt64 kv.2 := by
  induction kvs with
  | nil => intro kv hkv; cases hkv
  | cons y ys ih =>
    intro kv hkv
    rcases List.mem_cons.mp hkv with h1 | h2
    · exact h1 ▸ h.1
    · exact ih h.2 kv h2

theorem toJsonList_roundtrip {xs : List Json}
    (h : ∀ x ∈ xs, to_json (from_json x) = Except.ok x) :
    to_json.toJsonList (from_json.fromJsonList xs) = Except.ok xs := by
  induction xs with
  | nil => rfl
  | cons y ys ih =>
    have hy := h y (List.mem_cons_self y ys)
    have hys := ih (fun x hx => h x (List.mem_cons_of_mem y hx))
    simp [from_json.fromJsonList, to_json.toJsonList, hy, hys]

theorem objInsert_of_not_mem {acc : List (String × Json)} {k : String}
    {v : Json} (h : k ∉ acc.map Prod.fst) :
    objInsert acc k v = acc ++ [(k, v)] := by
  induction acc with
  | nil => rfl
  | cons kv rest ih =>
    simp only [List.map_cons, List.mem_cons] at h
    push_neg at h
    rw [objInsert, if_neg (fun he => h.1 he.symm), ih h.2]
    rfl

theorem toJsonDict_roundtrip {kvs : List (String × Json)}
    (h : ∀ kv ∈ kvs, to_json (from_json kv.2) = Except.ok kv.2)
    (hnd : (kvs.map Prod.fst).Nodup) :
    ∀ acc : List (String × Json),
      (∀ kv ∈ kvs, kv.1 ∉ acc.map Prod.fst) →
      to_json.toJsonDict (from_json.fromJsonObj kvs) acc =
        Except.ok (acc ++ kvs) := by
  induction kvs with
  | nil => intro acc _; simp [from_json.fromJsonObj, to_json.toJsonDict]
  | cons kv rest ih =>
    obtain ⟨k, v⟩ := kv
    intro acc hdisj
    have hv := h (k, v) (List.mem_cons_self _ rest)
    have hins : objInsert acc k v = acc ++ [(k, v)] :=
      objInsert_of_not_mem (hdisj (k, v) (List.mem_cons_self _ rest))
    have hnd' := List.nodup_cons.mp hnd
    have hdisj' : ∀ kv' ∈ rest, kv'.1 ∉ (acc ++ [(k, v)]).map Prod.fst := by
      intro kv' hkv'
      simp only [List.map_append, List.mem_append, List.map_cons,
        List.map_nil, List.mem_singleton]
      push_neg
      refine ⟨hdisj kv' (List.mem_cons_of_mem _ hkv'), ?_⟩
      intro hk
      have hmem : kv'.1 ∈ rest.map Prod.fst :=
        List.mem_map_of_mem Prod.fst hkv'
      exact hnd'.1 (hk ▸ hmem)
    have hrest := ih (fun kv' hkv' => h kv' (List.mem_cons_of_mem _ hkv'))
      hnd'.2 (acc ++ [(k, v)]) hdisj'
    simp only [from_json.fromJsonObj, to_json.toJsonDict, hv]
    show to_json.toJsonDict (from_json.fromJsonObj rest)
      (objInsert acc (pyStr (PyObj.str k)) v) = Except.ok (acc ++ (k, v) :: rest)
    rw [show pyStr (PyObj.str k) = k from rfl, hins, hrest]
    simp

theorem encode_decode_id : ∀ v : Json, Json.wf v → Json.noUInt64 v →
    to_json (from_json v) = Except.ok v
  | .null, _, _ => rfl
  | .bool _, _, _ => rfl
  | .float64 _, _, _ => rfl
  | .str _, _, _ => rfl
  | .int64 i, hwf, _ => by
    have h : -(2 ^ 63) ≤ i ∧ i < 2 ^ 63 := hwf
    show toJsonInt i = Except.ok (Json.int64 i)
    rw [toJsonInt, castInt64, if_pos h]
    simp
  | .uint64 u, _, hnu => absurd hnu (by simp [Json.noUInt64])
  | .arr xs, hwf, hnu => by
    have hx : ∀ x ∈ xs, to_json (from_json x) = Except.ok x := fun x hx =>
      encode_decode_id x (wfList_forall hwf x hx) (noUList_forall hnu x hx)
    show to_json (PyObj.list (from_json.fromJsonList xs)) = Except.ok (Json.arr xs)
    simp [to_json, toJsonList_roundtrip hx]
  | .obj kvs, hwf, hnu => by
    have hv : ∀ kv ∈ kvs, to_json (from_json kv.2) = Except.ok kv.2 := fun kv hkv =>
      encode_decode_id kv.2 (wfObj_forall hwf.2 kv hkv) (noUObj_forall hnu kv hkv)
    have hd := toJsonDict_roundtrip hv hwf.1 [] (by simp)
    show to_json (PyObj.dict (from_json.fromJsonObj kvs)) = Except.ok (Json.obj kvs)
    simp [to_json, hd]
termination_by v => sizeOf v
decreasing_by
  · have h1 := List.sizeOf_lt_of_mem hx
    simp only [Json.arr.sizeOf_spec]
    omega
  · obtain ⟨a, b⟩ := kv
    have h1 := List.sizeOf_lt_of_mem hkv
    simp only [Prod.mk.sizeOf_spec] at h1
    simp only [Json.obj.sizeOf_spec]
    omega

theorem toJsonDict_keys (kvs : List (PyObj × PyObj)) :
    ∀ acc out : List (String × Json),
      (kvs.map fun kv => pyStr kv.1).Nodup →
      (∀ kv ∈ kvs, pyStr kv.1 ∉ acc.map Prod.fst) →
      to_json.toJsonDict kvs acc = Except.ok out →
      out.map Prod.fst = acc.map Prod.fst ++ kvs.map fun kv => pyStr kv.1 := by
  induction kvs with
  | nil =>
    intro acc out _ _ hok
    simp only [to_json.toJsonDict, Except.ok.injEq] at hok
    subst hok
    simp
  | cons kv rest ih =>
    intro acc out hnd hdisj hok
    simp only [to_json.toJsonDict] at hok
    cases hj : to_json kv.2 with
    | error e => rw [hj] at hok; cases hok
    | ok j =>
      rw [hj] at hok
      have hnd' := List.nodup_cons.mp hnd
      have hins : objInsert acc (pyStr kv.1) j = acc ++ [(pyStr kv.1, j)] :=
        objInsert_of_not_mem (hdisj kv (List.mem_cons_self _ _))
      have hdisj' : ∀ kv' ∈ rest,
          pyStr kv'.1 ∉ (objInsert acc (pyStr kv.1) j).map Prod.fst := by
        rw [hins]
        intro kv' hkv'
        simp only [List.map_append, List.mem_append, List.map_cons,
          List.map_nil, List.mem_singleton]
        push_neg
        refine ⟨hdisj kv' (List.mem_cons_of_mem _ hkv'), ?_⟩
        intro he
        have hmem : pyStr kv'.1 ∈ rest.map fun kv => pyStr kv.1 :=
          List.mem_map_of_mem (fun kv => pyStr kv.1) hkv'
        have hgoal : pyStr kv.1 ∈ rest.map fun kv => pyStr kv.1 := by
          rw [← he]; exact hmem
        exact hnd'.1 hgoal
      have hkeys := ih (objInsert acc (pyStr kv.1) j) out hnd'.2 hdisj' hok
      rw [hins] at hkeys
      simp only [List.map_append, List.map_cons, List.map_nil] at hkeys
      simp [hkeys]

/-! ## The claims -/

/-- C1.  For every structured value built only from the constructors
Null, Bool, Int64, Float64, String, Array and Object (no UInt64),
well-formed for nlohmann storage (64-bit integer payloads, unique object
keys), encoding the runtime value obtained by decoding it yields the
same structured value, with object key order preserved (the equality is
structural, on insertion-ordered objects). -/
theorem claim_C1_roundtrip (v : Json) (hwf : Json.wf v)
    (hnu : Json.noUInt64 v) : to_json (from_json v) = Except.ok v :=
  encode_decode_id v hwf hnu

/-- Witness for C1 at a concrete value exercising null, bool, signed
integer, float, string, array and nested object. -/
theorem claim_C1_roundtrip_witness :
    Json.wf (Json.obj [("b", Json.arr [Json.null, Json.bool true,
        Json.int64 (-5), Json.float64 7, Json.str "x"]),
      ("a", Json.obj [])]) ∧
    Json.noUInt64 (Json.obj [("b", Json.arr [Json.null, Json.bool true,
        Json.int64 (-5), Json.float64 7, Json.str "x"]),
      ("a", Json.obj [])]) ∧
    to_json (from_json (Json.obj [("b", Json.arr [Json.null,
        Json.bool true, Json.int64 (-5), Json.float64 7, Json.str "x"]),
      ("a", Json.obj [])])) =
      Except.ok (Json.obj [("b", Json.arr [Json.null, Json.bool true,
        Json.int64 (-5), Json.float64 7, Json.str "x"]),
      ("a", Json.obj [])]) := by
  have hwf : Json.wf (Json.obj [("b", Json.arr [Json.null, Json.bool true,
      Json.int64 (-5), Json.float64 7, Json.str "x"]),
      ("a", Json.obj [])]) := by
    simp only [Json.wf, Json.wf.wfList, Json.wf.wfObj]
    decide
  have hnu : Json.noUInt64 (Json.obj [("b", Json.arr [Json.null,
      Json.bool true, Json.int64 (-5), Json.float64 7, Json.str "x"]),
      ("a", Json.obj [])]) := by
    simp only [Json.noUInt64, Json.noUInt64.noUList, Json.noUInt64.noUObj]
    decide
  exact ⟨hwf, hnu, claim_C1_roundtrip _ hwf hnu⟩

/-- C2.  Encoding an integer first attempts the signed 64-bit cast, then
the unsigned one, each verified by converting back; so `2 ^ 63` encodes
as `UInt64 (2 ^ 63)`, `2 ^ 64` fails with the integer-out-of-range
error, and `-1` encodes as `Int64 (-1)`. -/
theorem claim_C2_integer_boundary :
    to_json (PyObj.int (2 ^ 63)) = Except.ok (Json.uint64 (2 ^ 63)) ∧
    (∃ m, to_json (PyObj.int (2 ^ 64)) =
      Except.error (ToJsonError.integerOutOfRange m)) ∧
    to_json (PyObj.int (-1)) = Except.ok (Json.int64 (-1)) :=
  ⟨rfl, ⟨_, rfl⟩, rfl⟩

/-- C3.  The docstring patcher is write-once on every slot-kind target
(plain callable, instance method, method descriptor, attribute
descriptor, type object): on an empty slot (null pointer or empty
string) attaching "hello" succeeds and stores its bytes; attaching
"world" to the resulting target fails with the kind's `already has a
docstring` error, returning before any write, so the slot still reads
"hello". -/
theorem claim_C3_write_once_docstring (k : SlotKind) (name : String)
    (d : Option (List Nat)) (hempty : slotDocumented d = false) :
    vineyard_add_doc (DocTarget.slot k name d) (PyObj.str "hello") =
      Except.ok (DocTarget.slot k name (some (utf8Bytes "hello"))) ∧
    vineyard_add_doc (DocTarget.slot k name (some (utf8Bytes "hello")))
        (PyObj.str "world") =
      Except.error (AddDocError.alreadyDocumented
        (k.noun ++ " '" ++ name ++ "' already has a docstring")) := by
  constructor
  · simp only [vineyard_add_doc, docPayload, hempty]
    rfl
  · simp only [vineyard_add_doc, docPayload]
    rw [show slotDocumented (some (utf8Bytes "hello")) = true from rfl]
    rfl

/-- Witness for C3 on a plain callable named `f` with a null doc slot. -/
theorem claim_C3_write_once_docstring_witness :
    slotDocumented Option.none = false ∧
    vineyard_add_doc (DocTarget.slot SlotKind.cfunction "f" Option.none)
        (PyObj.str "hello") =
      Except.ok (DocTarget.slot SlotKind.cfunction "f"
        (some (utf8Bytes "hello"))) ∧
    vineyard_add_doc (DocTarget.slot SlotKind.cfunction "f"
        (some (utf8Bytes "hello"))) (PyObj.str "world") =
      Except.error (AddDocError.alreadyDocumented
        "function 'f' already has a docstring") := by
  have h := claim_C3_write_once_docstring SlotKind.cfunction "f"
    Option.none rfl
  exact ⟨rfl, h.1, h.2⟩

/-- C4 as stated is false: a payload that is neither a byte sequence nor
text — here the integer 42, which cannot be interpreted as valid text —
does not make the call fail; the call succeeds and writes the
placeholder instead. -/
theorem claim_C4_counterexample :
    vineyard_add_doc (DocTarget.slot SlotKind.cfunction "f" Option.none)
        (PyObj.int 42) =
      Except.ok (DocTarget.slot SlotKind.cfunction "f"
        (some (utf8Bytes "<invalid string>"))) ∧
    vineyard_add_doc (DocTarget.slot SlotKind.cfunction "f" Option.none)
        (PyObj.int 42) ≠
      Except.error AddDocError.invalidUTF8 := by
  have h : vineyard_add_doc (DocTarget.slot SlotKind.cfunction "f"
      Option.none) (PyObj.int 42) =
      Except.ok (DocTarget.slot SlotKind.cfunction "f"
        (some (utf8Bytes "<invalid string>"))) := rfl
  refine ⟨h, ?_⟩
  intro hc
  rw [h] at hc
  exact Except.noConfusion hc

/-- C4 (amended).  The only invalid-text failure is for a text payload
whose UTF-8 unpacking fails (`PyUnicode_AsUTF8AndSize` returning null,
e.g. on lone surrogates): then the call fails with the
`error unpacking string as utf-8` error before any slot is inspected or
written, for every target. -/
theorem claim_C4_invalid_text_amended (obj : DocTarget) :
    vineyard_add_doc obj PyObj.strNonUTF8 =
      Except.error AddDocError.invalidUTF8 := rfl

/-- Witness for C4 (amended) at a concrete target. -/
theorem claim_C4_invalid_text_amended_witness :
    vineyard_add_doc (DocTarget.slot SlotKind.cfunction "f" Option.none)
        PyObj.strNonUTF8 = Except.error AddDocError.invalidUTF8 :=
  claim_C4_invalid_text_amended (DocTarget.slot SlotKind.cfunction "f"
    Option.none)

/-- C5.  For every structured UInt64 value strictly above the signed
64-bit maximum, the signed-integer branch of `from_json` also matches
(`is_number_integer` is true for unsigned values, so the dedicated
unsigned branch is never taken) and decoding yields the two's-complement
signed reinterpretation of the value. -/
theorem claim_C5_unsigned_decodes_as_signed (u : Nat) (hu : u < 2 ^ 64)
    (hbig : 2 ^ 63 - 1 < u) :
    Json.is_number_integer (Json.uint64 u) = true ∧
    from_json (Json.uint64 u) = PyObj.int ((u : Int) - 2 ^ 64) := by
  refine ⟨rfl, ?_⟩
  show PyObj.int (toSigned64 u) = PyObj.int ((u : Int) - 2 ^ 64)
  rw [toSigned64, Nat.mod_eq_of_lt hu, if_neg (by omega)]

/-- Witness for C5 at `u = 2 ^ 63`, which decodes to the runtime integer
`-2 ^ 63`. -/
theorem claim_C5_unsigned_decodes_as_signed_witness :
    (2 ^ 63 : Nat) < 2 ^ 64 ∧ 2 ^ 63 - 1 < (2 ^ 63 : Nat) ∧
    from_json (Json.uint64 (2 ^ 63)) = PyObj.int (-(2 ^ 63)) := by
  refine ⟨by norm_num, by norm_num, ?_⟩
  have h := (claim_C5_unsigned_decodes_as_signed (2 ^ 63) (by norm_num)
    (by norm_num)).2
  rw [h]
  norm_num

/-- C6.  The boolean capability check runs strictly before the integer
one, so every runtime value passing both checks (in Python a boolean
also reports as an integer) encodes as `Bool`, never as
`Int64`/`UInt64`. -/
theorem claim_C6_bool_checked_before_int (v : PyObj)
    (hb : isinstance_bool v = true) (hi : isinstance_int v = true) :
    ∃ b, to_json v = Except.ok (Json.bool b) := by
  cases v <;> simp [isinstance_bool] at hb
  exact ⟨_, rfl⟩

/-- Witness for C6: `True` passes both the boolean and the integer
check and encodes as a Bool. -/
theorem claim_C6_bool_checked_before_int_witness :
    isinstance_bool (PyObj.bool true) = true ∧
    isinstance_int (PyObj.bool true) = true ∧
    ∃ b, to_json (PyObj.bool true) = Except.ok (Json.bool b) :=
  ⟨rfl, rfl, claim_C6_bool_checked_before_int (PyObj.bool true) rfl rfl⟩

/-- C7.  Every byte-sequence runtime value encodes as a String equal to
the base64 encoding of the raw bytes; in particular the byte sequence
FF 00 10 encodes as its base64 encoding "/wAQ". -/
theorem claim_C7_bytes_base64 :
    (∀ bs : List Nat, to_json (PyObj.bytes bs) =
      Except.ok (Json.str (base64Encode bs))) ∧
    to_json (PyObj.bytes [255, 0, 16]) = Except.ok (Json.str "/wAQ") :=
  ⟨fun _ => rfl, rfl⟩

/-- C8.  Encoding a mapping yields an Object whose keys are, in order,
the text representations (`py::str`) of the mapping's keys — non-text
keys are stringified — provided the stringified keys are distinct (on
collision the source's `out[key] = ...` makes the last write win, a case
the claim does not constrain). -/
theorem claim_C8_mapping_keys_stringified (kvs : List (PyObj × PyObj))
    (out : List (String × Json))
    (hnd : (kvs.map fun kv => pyStr kv.1).Nodup)
    (hok : to_json (PyObj.dict kvs) = Except.ok (Json.obj out)) :
    out.map Prod.fst = kvs.map fun kv => pyStr kv.1 := by
  simp only [to_json] at hok
  cases hd : to_json.toJsonDict kvs [] with
  | error e => rw [hd] at hok; cases hok
  | ok o =>
    rw [hd] at hok
    simp only [Except.ok.injEq, Json.obj.injEq] at hok
    subst hok
    have h := toJsonDict_keys kvs [] o hnd (by simp) hd
    simpa using h

/-- Witness for C8: a mapping with the non-text key 42 encodes to an
Object with the key "42". -/
theorem claim_C8_mapping_keys_stringified_witness :
    to_json (PyObj.dict [(PyObj.int 42, PyObj.none)]) =
      Except.ok (Json.obj [("42", Json.null)]) ∧
    ([("42", Json.null)].map Prod.fst =
      [(PyObj.int 42, PyObj.none)].map fun kv => pyStr kv.1) := by
  refine ⟨rfl, ?_⟩
  exact claim_C8_mapping_keys_stringified [(PyObj.int 42, PyObj.none)]
    [("42", Json.null)] (by simp) rfl

/-- C9.  Every runtime value failing all of the supported-kind checks
(not none, boolean, integer, float, bytes, text, tuple, list or dict)
encodes to the unsupported-type error carrying the value's repr text;
`to_json` is a pure function of its argument, so no state is mutated. -/
theorem claim_C9_unsupported_type (v : PyObj)
    (h : toJsonSupported v = false) :
    to_json v = Except.error (ToJsonError.unsupportedType (pyRepr v)) := by
  cases v <;> simp [toJsonSupported, PyObj.is_none, isinstance_bool,
    isinstance_int, isinstance_float, isBytesCheck, isUnicodeCheck,
    isinstance_tuple, isinstance_list, isinstance_dict] at h
  rfl

/-- Witness for C9: an open file handle object is unsupported. -/
theorem claim_C9_unsupported_type_witness :
    toJsonSupported (PyObj.other "<_io.TextIOWrapper name='x'>") = false ∧
    to_json (PyObj.other "<_io.TextIOWrapper name='x'>") =
      Except.error (ToJsonError.unsupportedType
        (pyRepr (PyObj.other "<_io.TextIOWrapper name='x'>"))) :=
  ⟨rfl, claim_C9_unsupported_type
    (PyObj.other "<_io.TextIOWrapper name='x'>") rfl⟩

/-- C10.  On any of the five slot-kind targets with an empty slot, a doc
payload that is neither a byte sequence nor text succeeds and writes the
literal placeholder text `<invalid string>` into the slot instead of
failing. -/
theorem claim_C10_placeholder_doc (k : SlotKind) (name : String)
    (d : Option (List Nat)) (doc_obj : PyObj)
    (hempty : slotDocumented d = false)
    (hnb : isBytesCheck doc_obj = false)
    (hns : isUnicodeCheck doc_obj = false) :
    vineyard_add_doc (DocTarget.slot k name d) doc_obj =
      Except.ok (DocTarget.slot k name
        (some (utf8Bytes "<invalid string>"))) := by
  have hp : docPayload doc_obj = some (utf8Bytes "<invalid string>") := by
    cases doc_obj <;> simp_all [isBytesCheck, isUnicodeCheck, docPayload]
  simp only [vineyard_add_doc, hp, hempty]
  rfl

/-- Witness for C10: the integer payload 42 on a plain callable with an
empty slot stores the placeholder. -/
theorem claim_C10_placeholder_doc_witness :
    slotDocumented Option.none = false ∧
    isBytesCheck (PyObj.int 42) = false ∧
    isUnicodeCheck (PyObj.int 42) = false ∧
    vineyard_add_doc (DocTarget.slot SlotKind.cfunction "f" Option.none)
        (PyObj.int 42) =
      Except.ok (DocTarget.slot SlotKind.cfunction "f"
        (some (utf8Bytes "<invalid string>"))) :=
  ⟨rfl, rfl, rfl, claim_C10_placeholder_doc SlotKind.cfunction "f"
    Option.none (PyObj.int 42) rfl rfl rfl⟩

end VineyardSpec
